import Mathlib

/-
  Verification of the School Management System core logic
  (payroll calculation, attendance aggregation, grade classification),
  shallowly embedded from src/app.py.

  Modelling conventions:
  - SQL REAL columns (salary, marks) are modelled as rationals.
  - SQLite tables are lists of records; UNIQUE natural keys together with
    INSERT OR REPLACE are modelled as an upsert (filter out the conflicting
    row, append the new one).
  - SQLite division by zero yields NULL, never an error; SQL values that can
    be NULL are modelled as Option.
  - Python list indexing (month_names[month - 1] in save_salary_record)
    supports negative indices and raises IndexError out of range; it is
    modelled as pyListGet returning Option.
  - Columns never read by the functions under verification are omitted from
    the record structures (a projection, not a simplification of logic).
-/

namespace School

/-- A calendar date; attendance queries compare its month and year fields,
mirroring the strftime month/year filters in the SQL. -/
structure CalDate where
  year : Nat
  month : Nat
  day : Nat
deriving DecidableEq

/-- A row of the teachers table, projected to the columns read by the
payroll code (teacher_id, salary). -/
structure Teacher where
  teacher_id : Nat
  salary : ℚ
deriving DecidableEq

/-- A row of student_attendance or teacher_attendance: the subject of the
record (a student or teacher id), the day, and a status string
("Present" or "Absent" as written by the UI). -/
structure AttRecord where
  subject_id : Nat
  attendance_date : CalDate
  status : String
deriving DecidableEq

/-- A row of the subjects table, projected to the columns read by
get_student_results. -/
structure Subject where
  subject_id : Nat
  subject_name : String
deriving DecidableEq

/-- A row of the student_results table, projected to the columns read by
get_student_results. -/
structure ResultRecord where
  student_id : Nat
  subject_id : Nat
  exam_type : String
  marks : ℚ
  total_marks : ℚ
deriving DecidableEq

/-- A row of the salary_records table as written by save_salary_record;
month is the stored month NAME (a string), as in the schema. -/
structure SalaryRecord where
  teacher_id : Nat
  month : String
  year : Int
  base_salary : ℚ
  deductions : ℚ
  net_salary : ℚ
  status : String
deriving DecidableEq

/-- The relational store: one list per table touched by the verified code. -/
structure Store where
  teachers : List Teacher
  student_attendance : List AttRecord
  teacher_attendance : List AttRecord
  subjects : List Subject
  student_results : List ResultRecord
  salary_records : List SalaryRecord
deriving DecidableEq

def emptyStore : Store := ⟨[], [], [], [], [], []⟩

/-- Generic INSERT OR REPLACE against a UNIQUE key: drop every row whose key
matches the new row (predicate p), then append the new row. This is the
SQLite semantics of INSERT OR REPLACE under a UNIQUE constraint. -/
def upsertBy {α : Type} (p : α → Bool) (r : α) (l : List α) : List α :=
  l.filter (fun x => !p x) ++ [r]

/-- Does an attendance row have the given (subject, date) key? -/
def attKeyEq (x : AttRecord) (i : Nat) (d : CalDate) : Bool :=
  decide (x.subject_id = i ∧ x.attendance_date = d)

/-- Upsert into an attendance table on the UNIQUE(subject, date) key. -/
def attUpsert (l : List AttRecord) (r : AttRecord) : List AttRecord :=
  upsertBy (fun x => attKeyEq x r.subject_id r.attendance_date) r l

/-- At most one attendance row per (subject, date) key. -/
def attOK (l : List AttRecord) : Prop :=
  l.Pairwise (fun a b => ¬(a.subject_id = b.subject_id ∧ a.attendance_date = b.attendance_date))

/-- mark_student_attendance: INSERT OR REPLACE into student_attendance,
UNIQUE(student_id, attendance_date); returns True on success. -/
def mark_student_attendance (s : Store) (student_id : Nat) (attendance_date : CalDate)
    (status : String) : Bool × Store :=
  (true,
   { s with student_attendance := attUpsert s.student_attendance
                                    ⟨student_id, attendance_date, status⟩ })

/-- mark_teacher_attendance: INSERT OR REPLACE into teacher_attendance,
UNIQUE(teacher_id, attendance_date); returns True on success. -/
def mark_teacher_attendance (s : Store) (teacher_id : Nat) (attendance_date : CalDate)
    (status : String) : Bool × Store :=
  (true,
   { s with teacher_attendance := attUpsert s.teacher_attendance
                                    ⟨teacher_id, attendance_date, status⟩ })

/-- calculate_grade from src/app.py: fixed thresholds, highest first,
inclusive lower bounds, no clamping, no rounding. -/
def calculate_grade (percentage : ℚ) : String :=
  if percentage ≥ 90 then "A+"
  else if percentage ≥ 80 then "A"
  else if percentage ≥ 70 then "B"
  else if percentage ≥ 60 then "C"
  else if percentage ≥ 50 then "D"
  else "F"

/-- Rank of a letter grade under the ordering A+ > A > B > C > D > F,
used to state monotonicity of the classifier. -/
def gradeRank (g : String) : Nat :=
  if g = "A+" then 5
  else if g = "A" then 4
  else if g = "B" then 3
  else if g = "C" then 2
  else if g = "D" then 1
  else 0

/-- The rows of teacher_attendance selected by the attendance query of
calculate_monthly_salary: rows of this teacher whose date falls in the
given month and year. -/
def periodAttendance (s : Store) (tid month year : Nat) : List AttRecord :=
  s.teacher_attendance.filter
    (fun r => decide (r.subject_id = tid ∧ r.attendance_date.month = month ∧
                      r.attendance_date.year = year))

/-- COUNT(CASE WHEN status equals Absent THEN 1 END) over a row set. -/
def absentCount (recs : List AttRecord) : Nat :=
  (recs.filter (fun r => decide (r.status = "Absent"))).length

/-- calculate_monthly_salary from src/app.py, threaded through the store
state: look up the teacher (returning the (None, None, None) sentinel,
modelled as none, when absent), aggregate the period attendance, return
full pay when no day is marked, otherwise deduct base/30 per absent day.
The second component is the store after the call. -/
def calculate_monthly_salary (s : Store) (teacher_id month year : Nat) :
    Option (ℚ × ℚ × ℚ) × Store :=
  match s.teachers.find? (fun t => decide (t.teacher_id = teacher_id)) with
  | none => (none, s)
  | some t =>
      let recs := periodAttendance s teacher_id month year
      if recs.length = 0 then
        (some (t.salary, 0, t.salary), s)
      else
        let per_day_salary := t.salary / 30
        let deductions := per_day_salary * (absentCount recs : ℚ)
        (some (t.salary, deductions, t.salary - deductions), s)

/-- The month-name list of save_salary_record. -/
def monthNames : List String :=
  ["January", "February", "March", "April", "May", "June",
   "July", "August", "September", "October", "November", "December"]

/-- Python list indexing: nonnegative indices from the front (IndexError past
the end gives none), negative indices from the back (IndexError below
-length gives none). -/
def pyListGet (l : List String) (i : Int) : Option String :=
  if 0 ≤ i then l.get? i.toNat
  else if 0 ≤ (l.length : Int) + i then l.get? ((l.length : Int) + i).toNat
  else none

/-- Does a salary row have the given (teacher, month name, year) key? -/
def salKeyEq (x : SalaryRecord) (tid : Nat) (mname : String) (y : Int) : Bool :=
  decide (x.teacher_id = tid ∧ x.month = mname ∧ x.year = y)

/-- Upsert into salary_records on the UNIQUE(teacher_id, month, year) key. -/
def salUpsert (l : List SalaryRecord) (r : SalaryRecord) : List SalaryRecord :=
  upsertBy (fun x => salKeyEq x r.teacher_id r.month r.year) r l

/-- At most one salary row per (teacher, month, year) pay period. -/
def salOK (l : List SalaryRecord) : Prop :=
  l.Pairwise (fun a b => ¬(a.teacher_id = b.teacher_id ∧ a.month = b.month ∧ a.year = b.year))

/-- save_salary_record from src/app.py: translate the numeric month through
month_names[month - 1] (Python indexing; the IndexError is caught and the
function returns False leaving the store unchanged), then INSERT OR
REPLACE into salary_records. -/
def save_salary_record (s : Store) (teacher_id : Nat) (month year : Int)
    (base_salary deductions net_salary : ℚ) (status : String) : Bool × Store :=
  match pyListGet monthNames (month - 1) with
  | none => (false, s)
  | some month_name =>
      (true,
       { s with salary_records := salUpsert s.salary_records
                                    ⟨teacher_id, month_name, year, base_salary,
                                     deductions, net_salary, status⟩ })

/-- SQLite division: NULL on a zero divisor, never an error. -/
def sqliteDiv (a b : ℚ) : Option ℚ := if b = 0 then none else some (a / b)

/-- SQLite ROUND(x, 2). -/
def round2 (x : ℚ) : ℚ := (round (x * 100) : ℤ) / 100

/-- The percentage column computed by the get_student_results query:
ROUND(marks * 100.0 / total_marks, 2), with SQLite NULL propagation. -/
def resultPercentage (r : ResultRecord) : Option ℚ :=
  (sqliteDiv (r.marks * 100) r.total_marks).map round2

/-- A row of the get_student_results result set. -/
structure ResultRow where
  subject_name : String
  marks : ℚ
  total_marks : ℚ
  percentage : Option ℚ
deriving DecidableEq

/-- get_student_results from src/app.py: results of the student for the exam
type, inner-joined with subjects, each with its computed percentage. -/
def get_student_results (s : Store) (student_id : Nat) (exam_type : String) :
    List ResultRow :=
  (s.student_results.filter
      (fun r => decide (r.student_id = student_id ∧ r.exam_type = exam_type))).filterMap
    (fun r =>
      (s.subjects.find? (fun sub => decide (sub.subject_id = r.subject_id))).map
        (fun sub => ⟨sub.subject_name, r.marks, r.total_marks, resultPercentage r⟩))

-- ==================== helper lemmas ====================

lemma filter_after_filter_not {α : Type} (p : α → Bool) (l : List α) :
    (l.filter (fun x => !p x)).filter p = [] := by
  induction l with
  | nil => rfl
  | cons a t ih => cases h : p a <;> simp [List.filter_cons, h, ih]

lemma length_filter_upsertBy {α : Type} (p : α → Bool) (r : α) (l : List α)
    (hp : p r = true) : ((upsertBy p r l).filter p).length = 1 := by
  simp [upsertBy, List.filter_append, filter_after_filter_not, hp]

lemma eq_of_mem_upsertBy {α : Type} (p : α → Bool) (r : α) (l : List α) (x : α)
    (hx : x ∈ upsertBy p r l) (hpx : p x = true) : x = r := by
  rcases List.mem_append.mp hx with h | h
  · rcases List.mem_filter.mp h with ⟨-, hb⟩
    simp [hpx] at hb
  · simpa using h

lemma pairwise_upsertBy {α : Type} (R : α → α → Prop) (p : α → Bool) (r : α)
    (l : List α) (h : l.Pairwise R) (hcross : ∀ a, p a = false → R a r) :
    (upsertBy p r l).Pairwise R := by
  unfold upsertBy
  refine List.pairwise_append.mpr
    ⟨List.Pairwise.sublist (List.filter_sublist _) h, ?_, ?_⟩
  · simp
  · intro a ha b hb
    rcases List.mem_filter.mp ha with ⟨-, hpa⟩
    have hfa : p a = false := by simpa using hpa
    have hbr : b = r := List.mem_singleton.mp hb
    subst hbr
    exact hcross a hfa

/-- The correct English month name for a month number 1..12 (empty string
elsewhere): the reference mapping against which the list-index
translation inside save_salary_record is checked. -/
def monthNameOf (m : Int) : String :=
  if m = 1 then "January" else if m = 2 then "February" else if m = 3 then "March"
  else if m = 4 then "April" else if m = 5 then "May" else if m = 6 then "June"
  else if m = 7 then "July" else if m = 8 then "August" else if m = 9 then "September"
  else if m = 10 then "October" else if m = 11 then "November"
  else if m = 12 then "December" else ""

/-- Replace the salary_records table of a store. -/
def setSalaryRecords (s : Store) (l : List SalaryRecord) : Store :=
  { s with salary_records := l }

lemma attUpsert_count (l : List AttRecord) (sid : Nat) (d : CalDate) (st : String) :
    ((attUpsert l ⟨sid, d, st⟩).filter (fun x => attKeyEq x sid d)).length = 1 :=
  length_filter_upsertBy _ _ _ (by simp [attKeyEq])

lemma attUpsert_status (l : List AttRecord) (sid : Nat) (d : CalDate) (st : String)
    (x : AttRecord) (hx : x ∈ attUpsert l ⟨sid, d, st⟩)
    (hk : attKeyEq x sid d = true) : x.status = st := by
  rw [eq_of_mem_upsertBy _ _ _ _ hx hk]

lemma attUpsert_ok (l : List AttRecord) (r : AttRecord) (h : attOK l) :
    attOK (attUpsert l r) := by
  refine pairwise_upsertBy _ _ _ _ h ?_
  intro a ha
  simpa [attKeyEq] using ha

lemma salUpsert_count (l : List SalaryRecord) (tid : Nat) (name : String) (y : Int)
    (b d n : ℚ) (st : String) :
    ((salUpsert l ⟨tid, name, y, b, d, n, st⟩).filter
        (fun x => salKeyEq x tid name y)).length = 1 :=
  length_filter_upsertBy _ _ _ (by simp [salKeyEq])

lemma salUpsert_mem (l : List SalaryRecord) (tid : Nat) (name : String) (y : Int)
    (b d n : ℚ) (st : String) (x : SalaryRecord)
    (hx : x ∈ salUpsert l ⟨tid, name, y, b, d, n, st⟩)
    (hk : salKeyEq x tid name y = true) : x = ⟨tid, name, y, b, d, n, st⟩ :=
  eq_of_mem_upsertBy _ _ _ _ hx hk

lemma salUpsert_ok (l : List SalaryRecord) (r : SalaryRecord) (h : salOK l) :
    salOK (salUpsert l r) := by
  refine pairwise_upsertBy _ _ _ _ h ?_
  intro a ha
  simpa [salKeyEq] using ha

-- ==================== theorems ====================

/-- C3: calculate_grade returns the letter grade given by the first matching
inclusive lower bound, highest first: at least 90 gives A+, at least 80
gives A, at least 70 gives B, at least 60 gives C, at least 50 gives D,
and everything below 50 (negative values included, unclamped) gives F;
the comparisons are on the exact percentage, with no rounding. -/
theorem grade_thresholds (p : ℚ) :
    (90 ≤ p → calculate_grade p = "A+") ∧
    (80 ≤ p → p < 90 → calculate_grade p = "A") ∧
    (70 ≤ p → p < 80 → calculate_grade p = "B") ∧
    (60 ≤ p → p < 70 → calculate_grade p = "C") ∧
    (50 ≤ p → p < 60 → calculate_grade p = "D") ∧
    (p < 50 → calculate_grade p = "F") := by
  unfold calculate_grade
  refine ⟨fun h => ?_, fun h h2 => ?_, fun h h2 => ?_, fun h h2 => ?_,
          fun h h2 => ?_, fun h => ?_⟩ <;>
    split_ifs <;> first | rfl | linarith

/-- Witness for C3: 89.5 percent is strictly below the A+ bound, so without
any rounding it classifies as A. -/
theorem grade_thresholds_witness : calculate_grade (179 / 2) = "A" :=
  (grade_thresholds (179 / 2)).2.1 (by norm_num) (by norm_num)

/-- C4: calculate_grade is monotone: a higher percentage never gets a worse
letter grade, under the ordering A+ > A > B > C > D > F. -/
theorem grade_monotone (p q : ℚ) (h : q ≤ p) :
    gradeRank (calculate_grade q) ≤ gradeRank (calculate_grade p) := by
  unfold calculate_grade
  split_ifs <;> first | decide | linarith

/-- Witness for C4 at the concrete pair 70 ≤ 80. -/
theorem grade_monotone_witness :
    gradeRank (calculate_grade 70) ≤ gradeRank (calculate_grade 80) :=
  grade_monotone 80 70 (by norm_num)

/-- A concrete store for witnesses: one teacher with base salary 30000 and
two marked attendance days in January 2024, one Absent and one Present. -/
def storeA : Store :=
  { emptyStore with
      teachers := [⟨1, 30000⟩],
      teacher_attendance := [⟨1, ⟨2024, 1, 10⟩, "Absent"⟩, ⟨1, ⟨2024, 1, 11⟩, "Present"⟩] }

/-- A concrete store for witnesses: one teacher with base salary 0 and no
attendance rows. -/
def storeB : Store := { emptyStore with teachers := [⟨2, 0⟩] }

/-- A concrete store for witnesses: one subject and one stored result with
total_marks 0. -/
def storeD : Store :=
  { emptyStore with
      subjects := [⟨3, "Math"⟩],
      student_results := [⟨5, 3, "Mid Term", 45, 0⟩] }

/-- C1: when the teacher exists and at least one attendance day is marked in
the period, calculate_monthly_salary returns deductions equal to
(base_salary / 30) times the absent-day count and net_salary equal to
base_salary minus deductions; and for a nonnegative base salary the net
salary never exceeds the base salary. -/
theorem salary_deduction_formula (s : Store) (tid month year : Nat) (t : Teacher)
    (hf : s.teachers.find? (fun x => decide (x.teacher_id = tid)) = some t)
    (hpos : (periodAttendance s tid month year).length ≠ 0) :
    (calculate_monthly_salary s tid month year).1 =
      some (t.salary,
            t.salary / 30 * (absentCount (periodAttendance s tid month year) : ℚ),
            t.salary - t.salary / 30 * (absentCount (periodAttendance s tid month year) : ℚ)) ∧
    (0 ≤ t.salary →
      t.salary - t.salary / 30 * (absentCount (periodAttendance s tid month year) : ℚ) ≤
        t.salary) := by
  constructor
  · simp only [calculate_monthly_salary, hf]
    rw [if_neg hpos]
  · intro hs
    refine sub_le_self _ ?_
    exact mul_nonneg (div_nonneg hs (by norm_num)) (Nat.cast_nonneg _)

/-- Witness for C1: base 30000, one absent day out of two marked, giving a
1000 deduction and a 29000 net salary. -/
theorem salary_deduction_formula_witness :
    (calculate_monthly_salary storeA 1 1 2024).1 = some (30000, 1000, 29000) := by
  have h := (salary_deduction_formula storeA 1 1 2024 ⟨1, 30000⟩ (by decide) (by decide)).1
  have ha : absentCount (periodAttendance storeA 1 1 2024) = 1 := rfl
  rw [h, ha]
  norm_num

/-- C2: when the teacher exists but zero attendance days are marked in the
period, calculate_monthly_salary returns zero deductions and full pay,
for every base salary including zero. -/
theorem salary_full_pay_when_unmarked (s : Store) (tid month year : Nat) (t : Teacher)
    (hf : s.teachers.find? (fun x => decide (x.teacher_id = tid)) = some t)
    (hz : (periodAttendance s tid month year).length = 0) :
    (calculate_monthly_salary s tid month year).1 = some (t.salary, 0, t.salary) := by
  simp only [calculate_monthly_salary, hf]
  rw [if_pos hz]

/-- Witness for C2: a teacher with base salary 0 and no marked days gets
deductions 0 and net salary 0 (full pay). -/
theorem salary_full_pay_when_unmarked_witness :
    (calculate_monthly_salary storeB 2 1 2024).1 = some (0, 0, 0) :=
  (salary_full_pay_when_unmarked storeB 2 1 2024 ⟨2, 0⟩ (by decide) (by decide)).trans
    (by decide)

/-- C5: when the teacher id does not resolve to a record,
calculate_monthly_salary returns the (None, None, None) sentinel and the
store is untouched: no salary computation and no attendance query happen. -/
theorem salary_not_found (s : Store) (tid month year : Nat)
    (hf : s.teachers.find? (fun x => decide (x.teacher_id = tid)) = none) :
    calculate_monthly_salary s tid month year = (none, s) := by
  simp only [calculate_monthly_salary, hf]

/-- Witness for C5: an unknown teacher id on the empty store. -/
theorem salary_not_found_witness :
    calculate_monthly_salary emptyStore 7 1 2024 = (none, emptyStore) :=
  salary_not_found emptyStore 7 1 2024 (by decide)

/-- C8: calculate_monthly_salary never writes to the store: the store after
the call is identical to the store before it, for every input. -/
theorem salary_calculation_pure (s : Store) (tid month year : Nat) :
    (calculate_monthly_salary s tid month year).2 = s := by
  unfold calculate_monthly_salary
  cases hf : s.teachers.find? (fun x => decide (x.teacher_id = tid)) with
  | none => rfl
  | some t =>
      dsimp only
      split <;> rfl

/-- C6: marking attendance twice for the same key leaves exactly one row for
that key, carrying the most recent status — for students on the
(student_id, attendance_date) key and for teachers on the
(teacher_id, attendance_date) key — and every attendance upsert preserves
the at-most-one-row-per-key invariant. -/
theorem attendance_upsert_idempotent (s : Store) (sid tid : Nat) (d : CalDate)
    (st1 st2 : String) :
    (((mark_student_attendance (mark_student_attendance s sid d st1).2
          sid d st2).2.student_attendance.filter (fun x => attKeyEq x sid d)).length = 1 ∧
     (∀ x ∈ (mark_student_attendance (mark_student_attendance s sid d st1).2
               sid d st2).2.student_attendance,
        attKeyEq x sid d = true → x.status = st2)) ∧
    (((mark_teacher_attendance (mark_teacher_attendance s tid d st1).2
          tid d st2).2.teacher_attendance.filter (fun x => attKeyEq x tid d)).length = 1 ∧
     (∀ x ∈ (mark_teacher_attendance (mark_teacher_attendance s tid d st1).2
               tid d st2).2.teacher_attendance,
        attKeyEq x tid d = true → x.status = st2)) ∧
    (∀ (l : List AttRecord) (r : AttRecord), attOK l → attOK (attUpsert l r)) := by
  refine ⟨⟨?_, ?_⟩, ⟨?_, ?_⟩, ?_⟩
  · exact attUpsert_count _ sid d st2
  · intro x hx hk
    exact attUpsert_status _ sid d st2 x hx hk
  · exact attUpsert_count _ tid d st2
  · intro x hx hk
    exact attUpsert_status _ tid d st2 x hx hk
  · exact attUpsert_ok

/-- Witness for C6: marking day (2024, 1, 5) Present then Absent for student 1
leaves one row for that key, and upserting into a singleton table keeps
the invariant. -/
theorem attendance_upsert_idempotent_witness :
    ((mark_student_attendance (mark_student_attendance emptyStore 1 ⟨2024, 1, 5⟩
        "Present").2 1 ⟨2024, 1, 5⟩ "Absent").2.student_attendance.filter
      (fun x => attKeyEq x 1 ⟨2024, 1, 5⟩)).length = 1 ∧
    attOK (attUpsert [⟨1, ⟨2024, 1, 5⟩, "Present"⟩] ⟨2, ⟨2024, 1, 5⟩, "Absent"⟩) :=
  ⟨(attendance_upsert_idempotent emptyStore 1 1 ⟨2024, 1, 5⟩ "Present" "Absent").1.1,
   (attendance_upsert_idempotent emptyStore 1 1 ⟨2024, 1, 5⟩ "Present" "Absent").2.2
     [⟨1, ⟨2024, 1, 5⟩, "Present"⟩] ⟨2, ⟨2024, 1, 5⟩, "Absent"⟩ (by simp [attOK])⟩

/-- C7: saving a salary record twice for the same (teacher, month, year) pay
period leaves exactly one stored row for that period, whose base salary,
deductions and net salary are those of the second save, and the
uniqueness-per-period invariant is preserved through both saves. -/
theorem salary_record_upsert (s : Store) (tid : Nat) (month year : Int) (name : String)
    (b1 d1 n1 b2 d2 n2 : ℚ) (st1 st2 : String)
    (hname : pyListGet monthNames (month - 1) = some name) :
    (((save_salary_record (save_salary_record s tid month year b1 d1 n1 st1).2
          tid month year b2 d2 n2 st2).2.salary_records.filter
        (fun x => salKeyEq x tid name year)).length = 1 ∧
     (∀ x ∈ (save_salary_record (save_salary_record s tid month year b1 d1 n1 st1).2
               tid month year b2 d2 n2 st2).2.salary_records,
        salKeyEq x tid name year = true →
          x.base_salary = b2 ∧ x.deductions = d2 ∧ x.net_salary = n2)) ∧
    (salOK s.salary_records →
      salOK (save_salary_record (save_salary_record s tid month year b1 d1 n1 st1).2
               tid month year b2 d2 n2 st2).2.salary_records) := by
  have e1 : (save_salary_record s tid month year b1 d1 n1 st1).2 =
      setSalaryRecords s (salUpsert s.salary_records ⟨tid, name, year, b1, d1, n1, st1⟩) := by
    simp only [save_salary_record, hname, setSalaryRecords]
  have e2 : (save_salary_record (save_salary_record s tid month year b1 d1 n1 st1).2
      tid month year b2 d2 n2 st2).2 =
      setSalaryRecords s
        (salUpsert (salUpsert s.salary_records ⟨tid, name, year, b1, d1, n1, st1⟩)
          ⟨tid, name, year, b2, d2, n2, st2⟩) := by
    rw [e1]
    simp only [save_salary_record, hname, setSalaryRecords]
  rw [e2]
  dsimp only [setSalaryRecords]
  refine ⟨⟨?_, ?_⟩, ?_⟩
  · exact salUpsert_count _ tid name year b2 d2 n2 st2
  · intro x hx hk
    rw [salUpsert_mem _ tid name year b2 d2 n2 st2 x hx hk]
    exact ⟨rfl, rfl, rfl⟩
  · intro hok
    exact salUpsert_ok _ _ (salUpsert_ok _ _ hok)

/-- Witness for C7: two saves for teacher 1, May 2024; one row remains. -/
theorem salary_record_upsert_witness :
    ((save_salary_record (save_salary_record emptyStore 1 5 2024 100 10 90 "Pending").2
        1 5 2024 200 0 200 "Pending").2.salary_records.filter
      (fun x => salKeyEq x 1 "May" 2024)).length = 1 :=
  ((salary_record_upsert emptyStore 1 5 2024 "May" 100 10 90 200 0 200 "Pending" "Pending"
      (by decide)).1).1

/-- C9: the percentage column computed when reading results never faults:
for every row get_student_results returns, the percentage is the rounded
marks / total_marks ratio scaled to 100 when total_marks is nonzero, and
the SQL NULL value when total_marks is zero (SQLite division by zero
yields NULL rather than an error). -/
theorem result_percentage_defined (s : Store) (sid : Nat) (etype : String)
    (row : ResultRow) (hrow : row ∈ get_student_results s sid etype) :
    row.percentage =
      if row.total_marks = 0 then none
      else some (round2 (row.marks * 100 / row.total_marks)) := by
  unfold get_student_results at hrow
  rcases List.mem_filterMap.mp hrow with ⟨r, hr, hf⟩
  rcases Option.map_eq_some'.mp hf with ⟨sub, hsub, hrw⟩
  subst hrw
  dsimp only
  by_cases h : r.total_marks = 0
  · simp [resultPercentage, sqliteDiv, h]
  · simp [resultPercentage, sqliteDiv, h]

/-- Witness for C9: a stored result with total_marks 0 yields the NULL
percentage, with no fault. -/
theorem result_percentage_defined_witness :
    (⟨"Math", 45, 0, none⟩ : ResultRow).percentage = none := by
  have h := result_percentage_defined storeD 5 "Mid Term" ⟨"Math", 45, 0, none⟩ (by decide)
  exact h.trans (by norm_num)

/-- C10: save_salary_record translates the numeric month through list index
month - 1: every month 1..12 stores the correct English month name;
month 0 does not fail but stores the record under December (Python
negative indexing); every month of 13 or more hits the caught IndexError
and returns False with the store unchanged. -/
theorem salary_month_mapping (s : Store) (tid : Nat) (year : Int) (b d n : ℚ)
    (st : String) :
    (∀ m : Int, 1 ≤ m → m ≤ 12 →
       save_salary_record s tid m year b d n st =
         (true, setSalaryRecords s
                  (salUpsert s.salary_records ⟨tid, monthNameOf m, year, b, d, n, st⟩))) ∧
    (save_salary_record s tid 0 year b d n st =
       (true, setSalaryRecords s
                (salUpsert s.salary_records ⟨tid, "December", year, b, d, n, st⟩))) ∧
    (∀ m : Int, 13 ≤ m → save_salary_record s tid m year b d n st = (false, s)) := by
  refine ⟨?_, ?_, ?_⟩
  · intro m h1 h2
    interval_cases m <;> rfl
  · rfl
  · intro m hm
    have hlen : monthNames.length = 12 := rfl
    have hn : pyListGet monthNames (m - 1) = none := by
      unfold pyListGet
      rw [if_pos (by omega : (0 : Int) ≤ m - 1)]
      exact List.get?_eq_none.mpr (by rw [hlen]; omega)
    simp only [save_salary_record, hn]

/-- Witness for C10: month 13 is rejected with the store unchanged, and
month 5 stores May. -/
theorem salary_month_mapping_witness :
    save_salary_record emptyStore 1 13 2024 100 0 100 "Pending" = (false, emptyStore) ∧
    save_salary_record emptyStore 1 5 2024 100 0 100 "Pending" =
      (true, setSalaryRecords emptyStore
               (salUpsert emptyStore.salary_records
                 ⟨1, monthNameOf 5, 2024, 100, 0, 100, "Pending"⟩)) :=
  ⟨(salary_month_mapping emptyStore 1 2024 100 0 100 "Pending").2.2 13 (by norm_num),
   (salary_month_mapping emptyStore 1 2024 100 0 100 "Pending").1 5 (by norm_num)
     (by norm_num)⟩

end School
